import Mathlib

set_option autoImplicit false

/-!
Shallow embedding of `src/src/skiplist/_skiplist.py`.

Python objects are modelled with an explicit arena: a `_SkipListEntry` is an
`Entry` stored at an index of `SLState.arena`, and every Python reference to an
entry is an `Option Nat` (`none` = Python `None`, `some r` = the entry at arena
index `r`).  The class-level `_SkipList._header` vector is the `header` field of
the state.  Python exceptions are modelled with `Except PyErr`:

* `unboundLocal`    — `UnboundLocalError` (reading a name the enclosing `for`
  loop never bound, as in `find_greatest_nongreater_key` line 49);
* `attributeError`  — `AttributeError` (attribute access on `None` or on an
  object lacking the attribute, e.g. `None.key`, `entry.get_level`, or field
  assignment on the immutable `typing.NamedTuple`);
* `indexError`      — `IndexError` (list index out of range);
* `assertionError`  — a failing `assert` statement;
* `keyNotFound`     — the spec's `KeyNotFound` error for `get` on a missing key;
* `danglingRef`     — an arena reference with no entry (never occurs on states
  built by the operations; Python references cannot dangle);
* `fuelExhausted`   — the bounded unfolding of a Python `while True:` loop ran
  out of fuel (the source's `_search` loop can genuinely diverge because the
  variable `levels` is never advanced inside the loop).
-/

inductive PyErr where
  | unboundLocal
  | attributeError
  | indexError
  | assertionError
  | keyNotFound
  | danglingRef
  | fuelExhausted
  deriving DecidableEq, Repr

/-- `_SkipListEntry` (line 123): `key`, `value`, and a levels vector.  The
levels vector `_SkipListLevelsVector` is its `_levels` list, holding optional
references to other entries (index 0 is the leaf level). -/
structure Entry where
  key : Int
  value : Int
  levels : List (Option Nat)
  deriving DecidableEq, Repr

/-- The mutable state reachable from the class attribute `_SkipList._header`
(line 157) together with the arena of all constructed entries. -/
structure SLState where
  header : List (Option Nat)
  arena : List Entry
  deriving DecidableEq, Repr

/-- Dereference an arena index.  In Python this is just following an object
reference and cannot fail; on states built by the embedded operations every
stored reference is in range. -/
def getEntry (s : SLState) (r : Nat) : Except PyErr Entry :=
  match s.arena[r]? with
  | some e => .ok e
  | none => .error .danglingRef

/-- `ref.key` where `ref : Optional[_SkipListEntry]`: `None.key` raises
`AttributeError`. -/
def keyOfOpt (s : SLState) (o : Option Nat) : Except PyErr Int :=
  match o with
  | none => .error .attributeError
  | some r => do
      let e ← getEntry s r
      pure e.key

/-- `_FillableList.ensure_size` (lines 8-10): extend with `None` fill values
until the length is at least `n` (no-op when already long enough). -/
def ensure_size (l : List (Option Nat)) (n : Nat) : List (Option Nat) :=
  if l.length < n then l ++ List.replicate (n - l.length) none else l

/-- `_SkipListLevelsVector.get_level` (lines 54-55): plain list indexing,
`IndexError` when out of range. -/
def get_level (lv : List (Option Nat)) (i : Nat) : Except PyErr (Option Nat) :=
  match lv[i]? with
  | some o => .ok o
  | none => .error .indexError

/-- `_SkipListLevelsVector.update_level` (lines 57-58): plain list element
assignment, `IndexError` when out of range. -/
def update_level (lv : List (Option Nat)) (i : Nat) (e : Option Nat) :
    Except PyErr (List (Option Nat)) :=
  if i < lv.length then .ok (lv.set i e) else .error .indexError

/-- `_SkipListHeaderLevelsVector.get_level` (lines 113-116): returns `None`
transparently beyond the current length (`level_idx > len(self._levels) - 1`
over Python ints is `len ≤ level_idx`). -/
def header_get_level (lv : List (Option Nat)) (i : Nat) : Option Nat :=
  if lv.length ≤ i then none else lv.getD i none

/-- `_SkipListHeaderLevelsVector.update_level` (lines 118-120): grow with
`ensure_size(level_idx + 1)`, then write. -/
def header_update_level (lv : List (Option Nat)) (i : Nat) (e : Option Nat) :
    List (Option Nat) :=
  (ensure_size lv (i + 1)).set i e

/-- The descending loop of `find_greatest_nongreater_key` (lines 44-46):
`for idx in range(min(len(self._levels) - 1, g), 0, -1)`.  The argument is the
current index (iteration stops before reaching 0); the result is `some (entry,
idx)` for the early `return`, `none` when the loop finishes without returning.
`self._levels[idx].key` raises `AttributeError` when the slot holds `None`. -/
def fgnk_loop (s : SLState) (lv : List (Option Nat)) (k : Int) :
    Nat → Except PyErr (Option (Option Nat × Int))
  | 0 => .ok none
  | n + 1 =>
    match lv[n + 1]? with
    | none => .error .indexError
    | some none => .error .attributeError
    | some (some r) => do
        let e ← getEntry s r
        if e.key ≤ k then .ok (some (some r, ((n : Int) + 1)))
        else fgnk_loop s lv k n

/-- `_SkipListLevelsVector.find_greatest_nongreater_key` (lines 32-52),
embedded faithfully, including the slip at lines 49-50: after the loop the
code reads `self._levels[idx]`, where `idx` is the leftover loop variable.
When the loop body never ran (`min(len - 1, g) < 1`) the name `idx` is unbound
and Python raises `UnboundLocalError`; when the loop ran, `idx` is `1` (the
last value produced by the descending range), not `0`. -/
def find_greatest_nongreater_key (s : SLState) (lv : List (Option Nat))
    (k : Int) (g : Nat) : Except PyErr (Option Nat × Int) := do
  let start := min (lv.length - 1) g
  match ← fgnk_loop s lv k start with
  | some res => pure res
  | none =>
    match lv[0]? with
    | none => .error .indexError
    | some none => .ok (none, -1)
    | some (some _) =>
      if 1 ≤ start then
        -- the loop ran, so `idx = 1`; re-evaluate `self._levels[idx].key <= k`
        match lv[1]? with
        | none => .error .indexError
        | some none => .error .attributeError
        | some (some r) => do
            let e ← getEntry s r
            if e.key ≤ k then .ok (some r, 1) else .ok (none, -1)
      else .error .unboundLocal

/-- The recording callback `traverse` of `_search_to_modify` (lines 262-264):
`ensure_size(level_idx + 1)` on the fillable list, then write the entry (which
may itself be `None`, since `_search` passes the node visited *before* the
advance and starts with `entry = None`). -/
def traverse_record (tr : List (Option Nat)) (e : Option Nat) (i : Nat) :
    List (Option Nat) :=
  (ensure_size tr (i + 1)).set i e

/-- The `while True:` loop of `_SkipList._search` (lines 228-239), unfolded on
fuel.  Faithful to the source, the vector searched is `self._header` on every
iteration: the local variable `levels` is initialised at line 223 and never
reassigned inside the loop, so the traversal never moves into the vector of the
entry it advanced to.  `recording` selects whether the callback `fn` is
present; the recorded table is threaded through as `tr`. -/
def search_loop (s : SLState) (key : Int) (recording : Bool) :
    Nat → Option Nat → Nat → List (Option Nat) →
    Except PyErr (Option Nat × List (Option Nat))
  | 0, _, _, _ => .error .fuelExhausted
  | fuel + 1, entry, g, tr => do
      let lv := s.header
      let (nextE, li) ← find_greatest_nongreater_key s lv key g
      if li < 0 then pure (entry, tr)
      else
        match nextE with
        | none => .error .attributeError
        | some r => do
            let e ← getEntry s r
            if e.key = key then pure (some r, tr)
            else
              let tr2 := if recording then traverse_record tr entry li.toNat else tr
              search_loop s key recording fuel (some r) li.toNat tr2

/-- Fuel that over-approximates any terminating run of `_search`.  The loop's
level bound is non-increasing, so a run that visits more states than this bound
allows is genuinely divergent. -/
def search_fuel (s : SLState) : Nat :=
  s.header.length + s.arena.length + 2

/-- `_SkipList._search` with `fn = None` (lines 211-239): start from the header
vector at its highest level, with `entry = None`. -/
def search (s : SLState) (key : Int) : Except PyErr (Option Nat) := do
  let p ← search_loop s key false (search_fuel s) none (s.header.length - 1) []
  pure p.1

/-- `_SkipList._search_to_modify` (lines 241-268): run `_search` with the
recording callback, then clear the result to `None` unless its key matches. -/
def search_to_modify (s : SLState) (key : Int) :
    Except PyErr (Option Nat × List (Option Nat)) := do
  let (entry, tr) ← search_loop s key true (search_fuel s) none
      (s.header.length - 1) []
  match entry with
  | none => pure (none, tr)
  | some r => do
      let e ← getEntry s r
      if e.key = key then pure (some r, tr) else pure (none, tr)

/-- `_SkipList._generate_level` (lines 270-272): hardcoded to `0`. -/
def generate_level : Nat := 0

/-- The `pointing_entries` fill loop of `_link_entry` (lines 281-286):
`pointing_entries[idx] = pointing_entries[idx + 1] if traversed_entries[idx] is
None else traversed_entries[idx]`, iterating from the highest index down.  When
the highest slot holds `None`, the read of `pointing_entries[len]` raises
`IndexError`.  A `None` hole is thus filled from the computed value one index
*above* it. -/
def fill_pointing : List (Option Nat) → Except PyErr (List (Option Nat))
  | [] => .ok []
  | t :: rest => do
      let filled ← fill_pointing rest
      match t with
      | some e => pure (some e :: filled)
      | none =>
        match filled with
        | [] => .error .indexError
        | f :: fs => pure (f :: f :: fs)

/-- The splice loop of `_link_entry` (lines 288-296), iterating `level` from
`0` to `link_level` (the second argument counts the remaining iterations).
When `level > len(pointing_entries) - 1` the predecessor is the header vector
and the splice proceeds: read the old target, point the header at the new
entry, then point the new entry's own vector at the old target.  Otherwise the
source binds `prev_vector = pointing_entries[level]`, which is a
`_SkipListEntry` (or `None`), not a levels vector; the call
`prev_vector.get_level(level)` then raises `AttributeError` (`_SkipListEntry`
is a `NamedTuple` without a `get_level` attribute). -/
def link_loop (newRef : Nat) (pointing : List (Option Nat)) :
    Nat → Nat → SLState → Except PyErr SLState
  | _, 0, s => .ok s
  | level, rem + 1, s =>
    if pointing.length ≤ level then do
      let nx := header_get_level s.header level
      let hd := header_update_level s.header level (some newRef)
      let s1 : SLState := { s with header := hd }
      let e ← getEntry s1 newRef
      let lv2 ← update_level e.levels level nx
      let s2 : SLState := { s1 with arena := s1.arena.set newRef { e with levels := lv2 } }
      link_loop newRef pointing (level + 1) rem s2
    else .error .attributeError

/-- `_SkipList._link_entry` (lines 274-296): build `pointing_entries` from the
traversed table, then splice the new entry in at levels `0 .. link_level`. -/
def link_entry (s : SLState) (link_level : Nat) (newRef : Nat)
    (tr : List (Option Nat)) : Except PyErr SLState := do
  let pointing ← fill_pointing tr
  link_loop newRef pointing 0 (link_level + 1) s

/-- `_SkipList.__setitem__` (lines 164-171).  When an entry with the key
exists, the source executes `existing_entry.value = value`; `_SkipListEntry` is
a `typing.NamedTuple`, whose instances are immutable tuples, so the assignment
raises `AttributeError`.  Otherwise a new entry is constructed
(`_SkipListLevelsVector(level)` gives `level + 1` slots of `None`; here it is
appended to the arena at index `s.arena.length`) and linked. -/
def setitem (s : SLState) (k v : Int) : Except PyErr SLState := do
  let (existing, tr) ← search_to_modify s k
  match existing with
  | some _ => .error .attributeError
  | none =>
    let level := generate_level
    let newRef := s.arena.length
    let s1 : SLState := ⟨s.header, s.arena ++ [⟨k, v, List.replicate (level + 1) none⟩]⟩
    link_entry s1 level newRef tr

/-- `_SkipList.__delitem__` (lines 173-174): the body is `pass`, so deletion
does nothing and returns normally, for present and absent keys alike. -/
def delitem (s : SLState) (k : Int) : Except PyErr SLState := .ok s

/-- The state of the class attribute `_header` right after class creation
(line 157): `_SkipListHeaderLevelsVector(0)` has `_levels = [None]`, and no
entry has been constructed. -/
def emptySL : SLState := ⟨[none], []⟩

/-- An insert (`sl[k] = v`) or delete (`del sl[k]`) operation. -/
inductive Op where
  | ins (k v : Int)
  | del (k : Int)
  deriving DecidableEq, Repr

/-- Apply a finite interleaving of insert and delete operations, propagating
the first raised exception. -/
def runOps : SLState → List Op → Except PyErr SLState
  | s, [] => .ok s
  | s, .ins k v :: rest => do runOps (← setitem s k v) rest
  | s, .del k :: rest => do runOps (← delitem s k) rest

/-- The None-suffix scan of `_SkipListLevelsVector._assert_rep_inv`
(lines 74-80): iterate `idx` from `len - 1` down to `0` (the first argument is
the number of indices still to visit, so the current index is one less),
carrying `greatest_non_none_idx`.  The assertion fails when a `None` slot is
seen after (i.e. below) a non-`None` slot. -/
def none_suffix_scan (lv : List (Option Nat)) :
    Nat → Option Nat → Except PyErr (Option Nat)
  | 0, g => .ok g
  | n + 1, g =>
    let e := lv.getD n none
    if e = none then
      if g = none then none_suffix_scan lv n g else .error .assertionError
    else
      none_suffix_scan lv n (if g = none then some n else g)

/-- The descending-keys scan of `_SkipListLevelsVector._assert_rep_inv`
(lines 88-94): from `greatest_non_none_idx - 1` down to `0` (first argument is
the count of indices left, current index one less), assert
`prev_entry == this_entry or prev_entry.key > this_entry.key`.  Equality of
`_SkipListEntry` values compares the `levels` field by object identity, so it
coincides with reference equality; `.key` on `None` raises `AttributeError`. -/
def desc_keys_scan (s : SLState) (lv : List (Option Nat)) :
    Nat → Option Nat → Except PyErr Unit
  | 0, _ => .ok ()
  | n + 1, prev =>
    let this := lv.getD n none
    if prev = this then desc_keys_scan s lv n this
    else do
      let pk ← keyOfOpt s prev
      let tk ← keyOfOpt s this
      if pk > tk then desc_keys_scan s lv n this else .error .assertionError

/-- The level-sufficiency scan of `_SkipListLevelsVector._assert_rep_inv`
(lines 97-100): for `idx, entry` over `_levels[0 : greatest_non_none_idx + 1]`
(ascending; the second argument counts the remaining slots), assert
`len(entry.levels) >= idx + 1`.  `None.levels` would raise `AttributeError`. -/
def suff_scan (s : SLState) (lv : List (Option Nat)) :
    Nat → Nat → Except PyErr Unit
  | _, 0 => .ok ()
  | idx, rem + 1 =>
    match lv.getD idx none with
    | none => .error .attributeError
    | some r => do
        let e ← getEntry s r
        if idx + 1 ≤ e.levels.length then suff_scan s lv (idx + 1) rem
        else .error .assertionError

/-- `_SkipListLevelsVector._assert_rep_inv` (lines 63-100): non-empty, `None`
slots grouped at the top, pointed keys descending with height, and every entry
pointed to at level `N` has at least `N + 1` levels of its own. -/
def vector_rep_inv (s : SLState) (lv : List (Option Nat)) : Except PyErr Unit := do
  if lv.length = 0 then .error .assertionError
  match ← none_suffix_scan lv lv.length none with
  | none => pure ()
  | some gi => do
      desc_keys_scan s lv gi (lv.getD gi none)
      suff_scan s lv 0 (gi + 1)

/-- The forward-keys scan of `_SkipListEntry._assert_rep_inv` (lines 136-139):
every pointed entry is `None` or has a key strictly greater than this entry's
key. -/
def fwd_keys_scan (s : SLState) (selfKey : Int) :
    List (Option Nat) → Except PyErr Unit
  | [] => .ok ()
  | none :: rest => fwd_keys_scan s selfKey rest
  | some r :: rest => do
      let e ← getEntry s r
      if selfKey < e.key then fwd_keys_scan s selfKey rest
      else .error .assertionError

/-- The expected-next scan of `_SkipListEntry._assert_rep_inv` (lines 143-153):
for each level of this entry, assert `expected_next_entry_by_level[idx] ==
self` (an `IndexError` when the entry is taller than the table; comparing
`None` with an entry is `False`, hence an assertion failure), then overwrite
the slot with the entry pointed to at that level. -/
def expected_scan (r : Nat) :
    List (Option Nat) → Nat → List (Option Nat) →
    Except PyErr (List (Option Nat))
  | [], _, expected => .ok expected
  | p :: rest, idx, expected =>
    match expected[idx]? with
    | none => .error .indexError
    | some ex =>
      if ex = some r then expected_scan r rest (idx + 1) (expected.set idx p)
      else .error .assertionError

/-- `_SkipListEntry._assert_rep_inv` (lines 128-153): check the entry's own
vector, the forward-keys property, and consume/update the expected-next
table. -/
def entry_rep_inv (s : SLState) (r : Nat) (expected : List (Option Nat)) :
    Except PyErr (List (Option Nat)) := do
  let e ← getEntry s r
  vector_rep_inv s e.levels
  fwd_keys_scan s e.key e.levels
  expected_scan r e.levels 0 expected

/-- The entry walk of `_SkipList._assert_rep_inv` (lines 307-310): follow
level-0 references from the header, checking each entry, on fuel (the walk
diverges on a cyclic level-0 chain; any state built by the operations has at
most `arena.length` entries in the chain). -/
def walk_entries (s : SLState) :
    Nat → List (Option Nat) → Option Nat → Except PyErr Unit
  | 0, _, some _ => .error .fuelExhausted
  | _, _, none => .ok ()
  | fuel + 1, expected, some r => do
      let expected2 ← entry_rep_inv s r expected
      let e ← getEntry s r
      let nxt ← get_level e.levels 0
      walk_entries s fuel expected2 nxt

/-- `_SkipList._assert_rep_inv` (lines 298-310): check the header vector, then
walk the level-0 chain with the expected-next table primed from the header's
slots.  Returns `.ok ()` exactly when every assertion in the source passes and
no other exception is raised. -/
def assert_rep_inv (s : SLState) : Except PyErr Unit := do
  vector_rep_inv s s.header
  walk_entries s (s.arena.length + 1) s.header (header_get_level s.header 0)

/-- The level-0 chain walk behind ascending iteration, on fuel. -/
def spec_iter_loop (s : SLState) :
    Nat → Option Nat → Except PyErr (List (Int × Int))
  | 0, some _ => .error .fuelExhausted
  | _, none => .ok []
  | fuel + 1, some r => do
      let e ← getEntry s r
      let nxt ← get_level e.levels 0
      let rest ← spec_iter_loop s fuel nxt
      pure ((e.key, e.value) :: rest)

/-- Modelled from the spec: the body of `_SkipList.__iter__` (lines 179-180) is
a stub (`pass`).  Spec §4.5, iterate (ascending): start at `Header.get(0)` and
repeatedly follow level-0 references, producing the (key, value) pairs in
order. -/
def spec_iter (s : SLState) : Except PyErr (List (Int × Int)) :=
  spec_iter_loop s (s.arena.length + 1) (header_get_level s.header 0)

/-- Modelled from the spec: the body of `_SkipList.__getitem__` (lines 161-162)
is a stub (`pass`).  Spec §4.5: `get(key)` is a thin wrapper over search (the
repository's implemented `_search`, embedded as `search`); it fails with
`KeyNotFound` if the returned node's key does not equal the target, including
when search returns `None`. -/
def spec_getitem (s : SLState) (k : Int) : Except PyErr Int := do
  let r? ← search s k
  match r? with
  | none => .error .keyNotFound
  | some r => do
      let e ← getEntry s r
      if e.key = k then pure e.value else .error .keyNotFound

/-- Modelled from the spec: the body of `_SkipList.__contains__`
(lines 185-186) is a stub (`pass`).  Spec §4.5: `contains(key)` is a thin
wrapper over search (the repository's implemented `_search`): true exactly when
the returned node exists and its key equals the target. -/
def spec_contains (s : SLState) (k : Int) : Except PyErr Bool := do
  let r? ← search s k
  match r? with
  | none => pure false
  | some r => do
      let e ← getEntry s r
      pure (e.key = k)

/-- The splice loop of the spec-modelled delete: for every level
`0 .. node.height` (the second argument counts remaining levels), set
`predecessor.update(level, node.get(level))`, where the predecessor is resolved
from the filled table exactly as in `_link_entry` — the table entry at that
level, defaulting to the header when the table has no slot that high (or holds
`None` there). -/
def spec_delete_loop (r : Nat) (pointing : List (Option Nat)) :
    Nat → Nat → SLState → Except PyErr SLState
  | _, 0, s => .ok s
  | level, rem + 1, s => do
      let e ← getEntry s r
      let target ← get_level e.levels level
      match (if pointing.length ≤ level then none else pointing.getD level none) with
      | none =>
          let hd := header_update_level s.header level target
          spec_delete_loop r pointing (level + 1) rem { s with header := hd }
      | some p => do
          let pe ← getEntry s p
          let plv ← update_level pe.levels level target
          spec_delete_loop r pointing (level + 1) rem
            { s with arena := s.arena.set p { pe with levels := plv } }

/-- Modelled from the spec: the body of `_SkipList.__delitem__`
(lines 173-174) is a stub (`pass`).  Spec §4.5, delete(key): run search with
predecessor recording (the repository's implemented `_search_to_modify`,
embedded as `search_to_modify`); if no exact match the operation is a no-op;
if found, for every level `0 .. node.height` set
`predecessor.update(level, node.get(level))`, splicing the node out of every
level it occupied. -/
def spec_delete (s : SLState) (k : Int) : Except PyErr SLState := do
  let (existing, tr) ← search_to_modify s k
  match existing with
  | none => pure s
  | some r => do
      let e ← getEntry s r
      let pointing ← fill_pointing tr
      spec_delete_loop r pointing 0 e.levels.length s

/-- Insert into a sorted association list: the reference sorted map of spec §8
(strictly increasing keys, last write wins). -/
def ref_insert (k v : Int) : List (Int × Int) → List (Int × Int)
  | [] => [(k, v)]
  | (k2, v2) :: rest =>
      if k < k2 then (k, v) :: (k2, v2) :: rest
      else if k = k2 then (k, v) :: rest
      else (k2, v2) :: ref_insert k v rest

/-- The reference sorted map built from a sequence of inserts. -/
def ref_map (l : List (Int × Int)) : List (Int × Int) :=
  l.foldl (fun m p => ref_insert p.1 p.2 m) []

/-- Constructing a `_SkipList` instance: the class defines no `__init__` and
`_header` is a class attribute created once at class-definition time
(line 157), so construction touches neither the header nor the arena — the new
instance shares the class-level state unchanged. -/
def skiplist_new (s : SLState) : SLState := s

/-- `sl[k] = v` called on a particular instance: no method ever assigns an
instance attribute, so `self._header` resolves to the class attribute and the
effect is independent of which instance is used. -/
def inst_setitem (inst : Nat) (s : SLState) (k v : Int) : Except PyErr SLState :=
  setitem s k v

/-- Reading the header's level-0 reference through a particular instance:
resolves to the shared class attribute. -/
def inst_head0 (inst : Nat) (s : SLState) : Option Nat :=
  header_get_level s.header 0

theorem ensure_size_length (l : List (Option Nat)) (n : Nat) :
    (ensure_size l n).length = max l.length n := by
  unfold ensure_size
  split
  · simp only [List.length_append, List.length_replicate]
    omega
  · omega

theorem ensure_size_getElem (l : List (Option Nat)) (n j : Nat) :
    (ensure_size l n)[j]? =
      if j < l.length then l[j]?
      else if j < max l.length n then some none else none := by
  unfold ensure_size
  split
  · rename_i hln
    by_cases hj : j < l.length
    · rw [List.getElem?_append_left hj, if_pos hj]
    · rw [List.getElem?_append_right (by omega), if_neg hj, List.getElem?_replicate]
      by_cases h2 : j < max l.length n
      · rw [if_pos h2, if_pos (by omega)]
      · rw [if_neg h2, if_neg (by omega)]
  · rename_i hln
    by_cases hj : j < l.length
    · rw [if_pos hj]
    · rw [if_neg hj, if_neg (by omega), List.getElem?_eq_none (by omega)]

theorem header_update_level_length (lv : List (Option Nat)) (i : Nat)
    (e : Option Nat) :
    (header_update_level lv i e).length = max lv.length (i + 1) := by
  unfold header_update_level
  rw [List.length_set, ensure_size_length]

theorem header_update_level_get_self (lv : List (Option Nat)) (i : Nat)
    (e : Option Nat) :
    (header_update_level lv i e)[i]? = some e := by
  unfold header_update_level
  apply List.getElem?_set_self
  rw [ensure_size_length]
  omega

theorem header_update_level_get_ne (lv : List (Option Nat)) (i j : Nat)
    (e : Option Nat) (h : j ≠ i) :
    (header_update_level lv i e)[j]? =
      if j < lv.length then lv[j]?
      else if j < max lv.length (i + 1) then some none else none := by
  unfold header_update_level
  rw [List.getElem?_set_ne (fun he => h he.symm), ensure_size_getElem]

theorem exbind_ok {α β : Type} {x : Except PyErr α} {f : α → Except PyErr β}
    {b : β} :
    (x >>= f) = .ok b ↔ ∃ a, x = .ok a ∧ f a = .ok b := by
  cases x with
  | error e =>
      simp only [show ((Except.error e : Except PyErr α) >>= f) = .error e from rfl]
      constructor
      · intro h
        exact Except.noConfusion h
      · rintro ⟨a, ha, _⟩
        exact Except.noConfusion ha
  | ok a =>
      simp only [show ((Except.ok a : Except PyErr α) >>= f) = f a from rfl]
      constructor
      · intro h
        exact ⟨a, rfl, h⟩
      · rintro ⟨a2, ha, hf⟩
        cases ha
        exact hf

theorem link_loop_growth (newRef : Nat) (pointing : List (Option Nat)) :
    ∀ rem level s s2, link_loop newRef pointing level rem s = .ok s2 →
      s.header.length ≤ s2.header.length ∧
        (1 ≤ rem → level + rem ≤ s2.header.length) := by
  intro rem
  induction rem with
  | zero =>
      intro level s s2 h
      simp only [link_loop] at h
      injection h with h2
      subst h2
      exact ⟨Nat.le_refl _, fun h1 => absurd h1 (by omega)⟩
  | succ rem ih =>
      intro level s s2 h
      simp only [link_loop] at h
      split at h
      · rw [exbind_ok] at h
        obtain ⟨e, hget, h⟩ := h
        rw [exbind_ok] at h
        obtain ⟨lv2, hupd, h⟩ := h
        obtain ⟨mono, himp⟩ := ih (level + 1) _ s2 h
        have mono2 : (header_update_level s.header level (some newRef)).length ≤
            s2.header.length := mono
        rw [header_update_level_length] at mono2
        have himp2 : 1 ≤ rem → (level + 1) + rem ≤ s2.header.length := himp
        constructor
        · exact le_trans (Nat.le_max_left _ _) mono2
        · intro h1
          rcases Nat.eq_zero_or_pos rem with h0 | hpos
          · subst h0
            exact le_trans (Nat.le_max_right _ _) mono2
          · have := himp2 hpos
            omega
      · exact Except.noConfusion h

theorem link_entry_growth (s : SLState) (h newRef : Nat) (tr : List (Option Nat))
    (s2 : SLState) (hok : link_entry s h newRef tr = .ok s2) :
    s.header.length ≤ s2.header.length ∧ h + 1 ≤ s2.header.length := by
  unfold link_entry at hok
  rw [exbind_ok] at hok
  obtain ⟨pointing, hfill, hok⟩ := hok
  obtain ⟨mono, himp⟩ := link_loop_growth newRef pointing (h + 1) 0 s s2 hok
  refine ⟨mono, ?_⟩
  have := himp (by omega)
  omega

theorem setitem_growth (s : SLState) (k v : Int) (s2 : SLState)
    (hok : setitem s k v = .ok s2) :
    s.header.length ≤ s2.header.length ∧ 1 ≤ s2.header.length := by
  unfold setitem at hok
  rw [exbind_ok] at hok
  obtain ⟨p, hsearch, hok⟩ := hok
  obtain ⟨existing, tr⟩ := p
  cases existing with
  | some r => exact Except.noConfusion hok
  | none =>
      have hg := link_entry_growth _ _ _ _ _ hok
      refine ⟨hg.1, ?_⟩
      have h2 := hg.2
      omega


/-- Claim C1: for every finite sequence of inserts applied to the initially
empty skip list, ascending iteration yields exactly the (key, value) pairs of
the reference sorted map built from the same sequence, in strictly increasing
key order.  The code refutes this: a single insert works and iteration (which
is spec-modelled, the source body being a stub) matches the reference map, but
the second insert of any two-insert sequence raises `UnboundLocalError` inside
`find_greatest_nongreater_key`, so no two-element state is ever produced to
iterate. -/
theorem C1_iteration_matches_reference :
    (do
      let s ← runOps emptySL [.ins 1 10]
      spec_iter s) = .ok (ref_map [(1, 10)]) ∧
    runOps emptySL [.ins 1 10, .ins 2 20] = .error .unboundLocal :=
  ⟨rfl, rfl⟩

/-- Claim C2: starting from the empty skip list, after every finite
interleaving of insert and delete operations — including the empty sequence
and sequences leaving a single element — `_assert_rep_inv` passes.  The code
refutes this: the empty sequence and a single insert do pass the embedded
`assert_rep_inv`, and the source's delete (`pass`) is a no-op, but any
interleaving with a second insert raises `UnboundLocalError` inside
`find_greatest_nongreater_key` — in particular the claim's highlighted case of
a sequence meant to leave a single element. -/
theorem C2_rep_inv_after_interleavings :
    (runOps emptySL [] = .ok emptySL ∧ assert_rep_inv emptySL = .ok ()) ∧
    (do
      let s ← runOps emptySL [.ins 1 10]
      assert_rep_inv s) = .ok () ∧
    runOps emptySL [.ins 1 10, .del 5, .ins 2 20] = .error .unboundLocal :=
  ⟨⟨rfl, rfl⟩, rfl, rfl⟩

/-- Claim C3: when key `k` is already present, `sl[k] = v` overwrites the
stored value in place and a following get returns `v`.  The code refutes this:
on a state whose header references an entry with key 5 at levels 0 and 1
(where the search does find the exact match without crashing), the assignment
`existing_entry.value = value` raises `AttributeError` because
`_SkipListEntry` is an immutable `typing.NamedTuple`; and on the state
actually reachable by one insert, the re-insert of the same key already raises
`UnboundLocalError` during the search. -/
theorem C3_overwrite_in_place :
    setitem ⟨[some 0, some 0], [⟨5, 10, [none, none]⟩]⟩ 5 99 =
      .error .attributeError ∧
    runOps emptySL [.ins 5 10, .ins 5 99] = .error .unboundLocal :=
  ⟨rfl, rfl⟩

/-- Claim C4: delete of a present key splices the node out of every level, a
following contains is false and iteration omits the key; delete of an absent
key is a no-op and idempotent.  Settled against the spec-modelled delete
(`__delitem__` is a stub): on the empty list delete is indeed a no-op, but on
the state reachable by one insert (key 5), deleting the present key 5 — or the
absent key 7 — raises `UnboundLocalError` inside the repository's implemented
search before any splice can happen. -/
theorem C4_delete_splices :
    runOps emptySL [.ins 5 10] = .ok ⟨[some 0], [⟨5, 10, [none]⟩]⟩ ∧
    spec_delete emptySL 1 = .ok emptySL ∧
    spec_delete ⟨[some 0], [⟨5, 10, [none]⟩]⟩ 5 = .error .unboundLocal ∧
    spec_delete ⟨[some 0], [⟨5, 10, [none]⟩]⟩ 7 = .error .unboundLocal :=
  ⟨rfl, rfl, rfl, rfl⟩

/-- Claim C5: for every state and absent key, get fails with `KeyNotFound` and
contains is false; on the empty list this holds for any key.  Settled against
the spec-modelled wrappers over the repository's implemented `_search`
(`__getitem__`/`__contains__` are stubs): the empty-list half holds, but on
the state reachable by one insert (key 5) both get and contains of the absent
key 3 raise `UnboundLocalError` instead. -/
theorem C5_get_contains_absent :
    (spec_getitem emptySL 3 = .error .keyNotFound ∧
      spec_contains emptySL 3 = .ok false) ∧
    runOps emptySL [.ins 5 10] = .ok ⟨[some 0], [⟨5, 10, [none]⟩]⟩ ∧
    spec_getitem ⟨[some 0], [⟨5, 10, [none]⟩]⟩ 3 = .error .unboundLocal ∧
    spec_contains ⟨[some 0], [⟨5, 10, [none]⟩]⟩ 3 = .error .unboundLocal :=
  ⟨⟨rfl, rfl⟩, rfl, rfl, rfl⟩

/-- Claim C6: `_search(k)` returns the node with key `k` when present,
otherwise the last non-None node visited, or `None` when no node was visited.
The code refutes all but the `None` case: on the empty list search returns
`None` as claimed, but on the single-entry state reachable by one insert
(key 5), searching for the present key 5 — or for 3, where `None`/predecessor
behaviour would apply — raises `UnboundLocalError` inside
`find_greatest_nongreater_key`. -/
theorem C6_search_result :
    search emptySL 5 = .ok none ∧
    search ⟨[some 0], [⟨5, 10, [none]⟩]⟩ 5 = .error .unboundLocal ∧
    search ⟨[some 0], [⟨5, 10, [none]⟩]⟩ 3 = .error .unboundLocal :=
  ⟨rfl, rfl, rfl⟩

/-- Claim C7: `find_greatest_nongreater_key(k, g)` scans levels
`min(length-1, g) .. 1` and, when none qualifies, separately checks level 0,
returning the level-0 entry at level 0 when present with key ≤ k, else
`(None, -1)`.  The code refutes the level-0 part: with a single-slot vector
holding an entry of key 5 and `g = 0` the loop never runs, so the read of the
loop variable `idx` at line 49 raises `UnboundLocalError` (the claim predicts
`(entry, 0)`); with a two-slot vector `[key 1, key 9]`, `k = 5`, `g = 1`, the
leftover `idx = 1` makes line 49 re-test level 1 instead of level 0 and the
function returns `(None, -1)` (the claim predicts the key-1 entry at
level 0). -/
theorem C7_find_greatest_nongreater_level0 :
    find_greatest_nongreater_key ⟨[some 0], [⟨5, 10, [none]⟩]⟩ [some 0] 5 0 =
      .error .unboundLocal ∧
    find_greatest_nongreater_key
      ⟨[some 0, some 1], [⟨1, 10, [none]⟩, ⟨9, 20, [none, none]⟩]⟩
      [some 0, some 1] 5 1 = .ok (none, -1) :=
  ⟨rfl, rfl⟩

/-- Claim C8: when insert links a new node of height L, each level's
predecessor is the nearest recorded predecessor-table entry at or below that
level (default: the header), and the splice updates the predecessor first,
then gives the new node the predecessor's previous target.  The code refutes
this whenever the table is non-empty: `_link_entry` binds `prev_vector =
pointing_entries[level]`, a `_SkipListEntry` rather than its levels vector, so
`prev_vector.get_level(level)` raises `AttributeError` (here: arena entry 0,
key 1, recorded at level 0, linking new entry 1 at height 0); moreover the
fill loop propagates `pointing_entries[idx + 1]` into `None` holes, i.e. the
nearest recorded entry at or *above* the level, not below. -/
theorem C8_link_entry_with_table :
    link_entry ⟨[some 0], [⟨1, 10, [none]⟩, ⟨2, 20, [none]⟩]⟩ 0 1 [some 0] =
      .error .attributeError ∧
    fill_pointing [none, some 7] = .ok [some 7, some 7] :=
  ⟨rfl, rfl⟩

/-- Claim C9: the header vector's `get_level` returns `None` beyond its
length; `update_level` grows the backing storage with `None` fill until the
length exceeds the level, then writes; and the header's length only grows —
monotonically, to at least the linked height + 1 — and is never shrunk by any
operation (insert via `_link_entry`/`__setitem__`, or the no-op delete). -/
theorem C9_header_vector_behavior :
    (∀ lv i, lv.length ≤ i → header_get_level lv i = none) ∧
    (∀ lv i e,
      (header_update_level lv i e).length = max lv.length (i + 1) ∧
      (header_update_level lv i e)[i]? = some e ∧
      ∀ j, j ≠ i → (header_update_level lv i e)[j]? =
        (if j < lv.length then lv[j]?
         else if j < max lv.length (i + 1) then some none else none)) ∧
    (∀ s h newRef tr s2, link_entry s h newRef tr = .ok s2 →
      s.header.length ≤ s2.header.length ∧ h + 1 ≤ s2.header.length) ∧
    (∀ s k v s2, setitem s k v = .ok s2 →
      s.header.length ≤ s2.header.length ∧ 1 ≤ s2.header.length) ∧
    (∀ s k, delitem s k = .ok s) := by
  refine ⟨?_, ?_, ?_, ?_, ?_⟩
  · intro lv i h
    simp [header_get_level, h]
  · intro lv i e
    exact ⟨header_update_level_length lv i e,
      header_update_level_get_self lv i e,
      fun j hj => header_update_level_get_ne lv i j e hj⟩
  · intro s h newRef tr s2 hok
    exact link_entry_growth s h newRef tr s2 hok
  · intro s k v s2 hok
    exact setitem_growth s k v s2 hok
  · intro s k
    rfl

/-- Witness for C9 at concrete inputs: the header of length 1 reports `None`
at level 3; updating level 2 of `[None]` grows the vector and leaves slot 0
intact; linking the first entry (height 0) into the empty skip list grows the
header to length 1 ≥ 0 + 1; the first insert keeps the header length
monotone; delete is a no-op. -/
theorem C9_header_vector_behavior_witness :
    header_get_level [some 0] 3 = none ∧
    ((header_update_level [none] 2 (some 5)).length = max 1 3 ∧
      (header_update_level [none] 2 (some 5))[0]? = some none) ∧
    (([none] : List (Option Nat)).length ≤ ([some 0] : List (Option Nat)).length ∧
      0 + 1 ≤ ([some 0] : List (Option Nat)).length) ∧
    ((emptySL.header.length ≤ ([some 0] : List (Option Nat)).length ∧
      1 ≤ ([some 0] : List (Option Nat)).length)) ∧
    delitem emptySL 1 = .ok emptySL :=
  ⟨C9_header_vector_behavior.1 [some 0] 3 (by decide),
   ⟨(C9_header_vector_behavior.2.1 [none] 2 (some 5)).1,
    (C9_header_vector_behavior.2.1 [none] 2 (some 5)).2.2 0 (by decide)⟩,
   C9_header_vector_behavior.2.2.1 ⟨[none], [⟨5, 10, [none]⟩]⟩ 0 0 []
     ⟨[some 0], [⟨5, 10, [none]⟩]⟩ rfl,
   C9_header_vector_behavior.2.2.2.1 emptySL 5 10 ⟨[some 0], [⟨5, 10, [none]⟩]⟩ rfl,
   C9_header_vector_behavior.2.2.2.2 emptySL 1⟩

/-- Claim C10: `_header` is class-level state, so all `_SkipList` instances
share it: an insert performed through any instance has the same effect on the
shared state, a key inserted through one instance is reachable (linked from
the shared header) through another, and constructing a new `_SkipList` after
an insert does not reset the shared state to an empty container. -/
theorem C10_shared_class_header :
    (∀ s, skiplist_new s = s) ∧
    (∀ i j s k v, inst_setitem i s k v = inst_setitem j s k v) ∧
    inst_setitem 1 (skiplist_new emptySL) 1 10 = .ok ⟨[some 0], [⟨1, 10, [none]⟩]⟩ ∧
    inst_head0 2 (skiplist_new ⟨[some 0], [⟨1, 10, [none]⟩]⟩) = some 0 ∧
    skiplist_new ⟨[some 0], [⟨1, 10, [none]⟩]⟩ ≠ emptySL :=
  ⟨fun _ => rfl, fun _ _ _ _ _ => rfl, rfl, rfl, by decide⟩
